import Mathlib

/-!
Shallow embedding of the lifecycle orchestration core of `src/app.rs`:
`Application::prepare_from_opts` (lines 47-186) and `Application::run`
(lines 188-298).

The control loop races three event sources with `tokio::select!`; each
resolution of that race is one `LoopEvent`.  Calls into modules outside
`src/` (config loading, `reload_config_and_respawn`, subcommand execution)
are represented by oracle values carried on the event, so the loop body is
translated statement by statement from the source while the environment
supplies the outcomes of the external calls.
-/

/-- Abstract lifecycle signals (`signal::SignalTo`, declared in the `signal`
module outside `src/`; the three variants are fixed by their uses in
`app.rs`). -/
inductive SignalTo where
  | Reload
  | Shutdown
  | Quit
deriving DecidableEq

/-- Lifecycle events emitted with `emit!` in `app.rs` (declared in
`internal_events`, imported at lines 22-25). -/
inductive Event where
  | VectorStarted
  | VectorStopped
  | VectorReloaded
  | VectorReloadFailed
  | VectorRecoveryFailed
  | VectorQuit
  | VectorConfigLoadFailed
deriving DecidableEq

/-- A configuration path entry (`(PathBuf, config::FormatHint)`); opaque here. -/
abbrev ConfigPath := String

/-- Modelled from the spec: `Configuration` (§3) — `config::Config` lives outside
`src/`.  An opaque comparable value describing the desired component set; we keep
the component identifier list and the health-check flag that `app.rs` mutates via
`healthchecks.set_require_healthy`. -/
structure Config where
  components : List Nat
  requireHealthy : Bool
deriving DecidableEq

/-- Modelled from the spec: `RunningTopology` (§3) — the type lives in the
`topology` module outside `src/`.  It owns the live component set and the
Configuration it was instantiated from. -/
structure RunningTopology where
  config : Config
  components : List Nat
deriving DecidableEq

/-- Outcome tag of `RunningTopology::reload_config_and_respawn` as matched at
`app.rs` lines 247-261: `okTrue` = `Ok(true)`, `okFalse` = `Ok(false)`,
`err` = `Err(())`. -/
inductive ReloadResult where
  | okTrue
  | okFalse
  | err
deriving DecidableEq

/-- Modelled from the spec: `reload_config_and_respawn` (§4.2) — the body lives in
the `topology` module outside `src/`.  On `Ok(true)` the candidate configuration is
swapped in atomically and the component set now reflects it; on `Ok(false)` (build
failure) "RunningTopology is left exactly as it was"; on `Err(())` the swap failed
irrecoverably and the caller shuts the remains down, so the returned handle is only
ever stopped.  Which outcome occurs is decided by the environment and supplied as
the `ReloadResult` argument. -/
def RunningTopology.reload_config_and_respawn
    (t : RunningTopology) (c : Config) : ReloadResult → RunningTopology
  | .okTrue => { config := c, components := c.components }
  | .okFalse => t
  | .err => t

/-- Root CLI options (`cli::RootOpts`, outside `src/`); only the fields `app.rs`
reads are modelled.  `threads` is the optional worker-thread count. -/
structure RootOpts where
  threads : Option Nat
  watchConfig : Bool
  requireHealthy : Bool
deriving DecidableEq

/-- `cli::Opts` — root options; the optional subcommand is represented in
`PrepareOracle` since running a subcommand is external. -/
structure Opts where
  root : RootOpts
deriving DecidableEq

/-- Results of the external calls one `Reload` iteration makes:
`processedPaths` = `config::process_paths` (line 237, `None` = failure, kept old
paths via `unwrap_or`), `loaded` = `config::load_from_paths` (line 239, `None` =
load/validation error), `respawn` = outcome of `reload_config_and_respawn`
(line 244). -/
structure ReloadOracle where
  processedPaths : Option (List ConfigPath)
  loaded : Option Config
  respawn : ReloadResult
deriving DecidableEq

/-- One resolution of the `tokio::select!` race (lines 233-275): a signal arrives
on the signal stream; the crash channel yields (`some ()` = a crash report,
`none` = every sender dropped, channel closed — the `_` pattern at line 272 binds
either); or the `sources_finished` future resolves. -/
inductive LoopEvent where
  | signal (s : SignalTo) (o : ReloadOracle)
  | crash (msg : Option Unit)
  | sourcesFinished
deriving DecidableEq

/-- Mutable state of the select loop: the owned `topology`, the `config_paths`
variable, and the trace of lifecycle events emitted so far. -/
structure LoopState where
  topology : RunningTopology
  configPaths : List ConfigPath
  events : List Event
deriving DecidableEq

/-- One iteration of the select-loop body (`app.rs` lines 232-276), translated
arm by arm.  Returns the updated state, paired with `some sig` when the
iteration executes `break sig` and `none` when the loop continues. -/
def loopIter (opts : RootOpts) (st : LoopState) : LoopEvent → LoopState × Option SignalTo
  | .signal s o =>
    if s = SignalTo.Reload then
      -- line 237: config_paths = process_paths(..).unwrap_or(config_paths)
      let configPaths := o.processedPaths.getD st.configPaths
      -- line 239: load_from_paths(..).ok()
      match o.loaded with
      | some newConfig =>
        -- line 242: new_config.healthchecks.set_require_healthy(opts.require_healthy)
        let newConfig := { newConfig with requireHealthy := opts.requireHealthy }
        let t := st.topology.reload_config_and_respawn newConfig o.respawn
        match o.respawn with
        | .okTrue =>
          ({ topology := t, configPaths := configPaths,
             events := st.events ++ [Event.VectorReloaded] }, none)
        | .okFalse =>
          ({ topology := t, configPaths := configPaths,
             events := st.events ++ [Event.VectorReloadFailed] }, none)
        | .err =>
          ({ topology := t, configPaths := configPaths,
             events := st.events ++ [Event.VectorReloadFailed, Event.VectorRecoveryFailed] },
           some SignalTo.Shutdown)
      | none =>
        ({ st with configPaths := configPaths,
                   events := st.events ++ [Event.VectorConfigLoadFailed] }, none)
    else
      -- line 268: break signal (signal is Shutdown or Quit here)
      (st, some s)
  | .crash _ => (st, some SignalTo.Shutdown)
  | .sourcesFinished => (st, some SignalTo.Shutdown)

/-- The `let signal = loop { .. }` (lines 232-276) run against a finite schedule
of select resolutions.  Second component `none` means the schedule ran out with
the loop still suspended (no break executed). -/
def runLoop (opts : RootOpts) (st : LoopState) : List LoopEvent → LoopState × Option SignalTo
  | [] => (st, none)
  | e :: rest =>
    match loopIter opts st e with
    | (st2, none) => runLoop opts st2 rest
    | (st2, some sig) => (st2, some sig)

/-- Resolution of the inner `tokio::select!` of the Shutdown arm (lines 281-288):
either `topology.stop()` completes first, or another signal arrives first. -/
inductive ShutdownRace where
  | stopCompleted
  | signalArrived
deriving DecidableEq

/-- Observables of the run after the loop breaks: the full event trace, whether
`topology.stop()` was invoked at all, whether its future was awaited to
completion (false = dropped mid-flight), and whether the topology was dropped. -/
structure FinalState where
  events : List Event
  stopInvoked : Bool
  stopCompleted : Bool
  topologyDropped : Bool
deriving DecidableEq

/-- The post-loop `match signal` (`app.rs` lines 278-296).  The Shutdown arm
emits `VectorStopped` and races `topology.stop()` against a further signal,
emitting `VectorQuit` and dropping the stop future if the signal wins; the Quit
arm emits `VectorQuit` and drops the topology without calling `stop`; `none`
models the `unreachable!()` arm at line 295. -/
def handleBreak (st : LoopState) (sig : SignalTo) (race : ShutdownRace) : Option FinalState :=
  match sig with
  | SignalTo.Shutdown =>
    match race with
    | .stopCompleted =>
      some { events := st.events ++ [Event.VectorStopped],
             stopInvoked := true, stopCompleted := true, topologyDropped := true }
    | .signalArrived =>
      some { events := st.events ++ [Event.VectorStopped, Event.VectorQuit],
             stopInvoked := true, stopCompleted := false, topologyDropped := true }
  | SignalTo.Quit =>
    some { events := st.events ++ [Event.VectorQuit],
           stopInvoked := false, stopCompleted := false, topologyDropped := true }
  | SignalTo.Reload => none

/-- State the loop starts in: the bootstrap topology and paths, with
`VectorStarted` already emitted (line 206). -/
def initState (t : RunningTopology) (paths : List ConfigPath) : LoopState :=
  { topology := t, configPaths := paths, events := [Event.VectorStarted] }

/-- Result of a whole `Application::run`: `pending` = the event schedule ended
with the loop still suspended; `done` = the loop broke and the post-loop match
ran to completion; `stuck` = the `unreachable!()` arm was hit. -/
inductive RunOutcome where
  | pending (st : LoopState)
  | done (f : FinalState)
  | stuck
deriving DecidableEq

/-- `Application::run` (lines 188-298): emit `VectorStarted`, drive the select
loop over the given schedule, then run the post-loop match, with `race`
resolving the graceful-stop race of the Shutdown arm. -/
def runApp (opts : RootOpts) (t : RunningTopology) (paths : List ConfigPath)
    (evs : List LoopEvent) (race : ShutdownRace) : RunOutcome :=
  match runLoop opts (initState t paths) evs with
  | (st, none) => RunOutcome.pending st
  | (st, some sig) =>
    match handleBreak st sig race with
    | some f => RunOutcome.done f
    | none => RunOutcome.stuck

/-- Exit code 78 of the `exitcode` crate (`exitcode::CONFIG`), the distinguished
configuration-error code. -/
def exitcode.CONFIG : Int := 78

/-- Modelled from the spec: `cli::handle_config_errors` (outside `src/`) logs the
load errors and yields the distinguished configuration-error exit code
(§6 Exit codes, §7 StartupConfigError). -/
def handle_config_errors : Int := exitcode.CONFIG

/-- Results of the external steps `prepare_from_opts` performs:
`subCommandCode` = `some code` when a subcommand was given and returned `code`
(lines 107-122); `processedPaths` = `config::process_paths` (line 129);
`watcherOk` = whether the config watcher thread spawned (lines 131-138);
`loaded` = `config::load_from_paths` (line 146); `builtPieces` = whether
`topology::build_or_log_errors` succeeded (lines 158-165); `startedOk` = whether
`topology::start_validated` succeeded (lines 169-170). -/
structure PrepareOracle where
  subCommandCode : Option Int
  processedPaths : Option (List ConfigPath)
  watcherOk : Bool
  loaded : Option Config
  builtPieces : Bool
  startedOk : Bool
deriving DecidableEq

/-- The bootstrap bundle (`ApplicationConfig`, lines 28-33); the crash-channel
receiver and api options carry no state relevant here. -/
structure ApplicationConfig where
  configPaths : List ConfigPath
  topology : RunningTopology
deriving DecidableEq

/-- `Application` (lines 35-39); the runtime handle is opaque. -/
structure Application where
  opts : RootOpts
  config : ApplicationConfig
deriving DecidableEq

/-- `Application::prepare_from_opts` (lines 47-186), translated step by step with
externals supplied by the oracle.  Logging/metrics initialization is pure side
effect and omitted.  The worker-thread validation at lines 84-89 runs before any
of the async work. -/
def prepare_from_opts (opts : Opts) (o : PrepareOracle) : Except Int Application := do
  -- lines 84-89: if let Some(threads) = root_opts.threads { if threads < 1 { Err(CONFIG) } }
  match opts.root.threads with
  | some threads => if threads < 1 then throw exitcode.CONFIG
  | none => pure ()
  -- lines 107-122: a subcommand runs one-shot and its code is returned as Err
  match o.subCommandCode with
  | some code => throw code
  | none => pure ()
  -- line 129: config::process_paths(&config_paths).ok_or(exitcode::CONFIG)?
  let configPaths ← match o.processedPaths with
    | some p => pure p
    | none => throw exitcode.CONFIG
  -- lines 131-138: config watcher spawn failure maps to exitcode::CONFIG
  if opts.root.watchConfig && !o.watcherOk then throw exitcode.CONFIG
  -- line 146: config::load_from_paths(..).map_err(handle_config_errors)?
  let config ← match o.loaded with
    | some c => pure c
    | none => throw handle_config_errors
  -- line 155: config.healthchecks.set_require_healthy(require_healthy)
  let config := { config with requireHealthy := opts.root.requireHealthy }
  -- lines 158-165: topology::build_or_log_errors(..).ok_or(exitcode::CONFIG)?
  if !o.builtPieces then throw exitcode.CONFIG
  -- lines 169-170: topology::start_validated(..).ok_or(exitcode::CONFIG)?
  if !o.startedOk then throw exitcode.CONFIG
  pure { opts := opts.root,
         config := { configPaths := configPaths,
                     topology := { config := config, components := config.components } } }

/-! ## Claim theorems -/

/-- C1: for every reload attempt in which the new configuration loads but fails
to build (`reload_config_and_respawn` returns `Ok(false)`), the iteration emits
exactly a `VectorReloadFailed` event and continues the loop (second component
`none` = back to Running), with the `topology` field — and hence its embedded
configuration — syntactically unchanged: no partial mutation. -/
theorem reload_build_failure_is_atomic (opts : RootOpts) (st : LoopState)
    (pp : Option (List ConfigPath)) (c : Config) :
    loopIter opts st (LoopEvent.signal SignalTo.Reload ⟨pp, some c, ReloadResult.okFalse⟩)
      = ({ st with configPaths := pp.getD st.configPaths,
                   events := st.events ++ [Event.VectorReloadFailed] }, none) := rfl

/-- Fixtures: a one-component topology, an empty-trace loop state, and inert
root options, used to evaluate the loop at concrete inputs. -/
def sampleTopology : RunningTopology :=
  { config := { components := [0], requireHealthy := false }, components := [0] }

def sampleState : LoopState :=
  { topology := sampleTopology, configPaths := [], events := [] }

def sampleOpts : RootOpts :=
  { threads := none, watchConfig := false, requireHealthy := false }

/-- C2 counterexample: on a Reload signal whose candidate configuration fails to
load (`load_from_paths` errors), the loop body emits `VectorConfigLoadFailed`
(line 265) — no `VectorReloadFailed` event fires, contradicting the claim at
this concrete input. -/
theorem load_failure_emits_no_reloadfailed :
    Event.VectorReloadFailed ∉
      (loopIter sampleOpts sampleState
        (LoopEvent.signal SignalTo.Reload ⟨none, none, ReloadResult.okFalse⟩)).1.events := by
  decide

/-- C2 (amended): for every Reload signal where the candidate configuration
fails validation or cannot be loaded, a `VectorConfigLoadFailed` event fires
(not `VectorReloadFailed`), the loop continues, and the topology is left
running under the old configuration unchanged. -/
theorem load_failure_emits_configloadfailed (opts : RootOpts) (st : LoopState)
    (pp : Option (List ConfigPath)) (r : ReloadResult) :
    loopIter opts st (LoopEvent.signal SignalTo.Reload ⟨pp, none, r⟩)
      = ({ st with configPaths := pp.getD st.configPaths,
                   events := st.events ++ [Event.VectorConfigLoadFailed] }, none) := rfl

/-- C3: when `reload_config_and_respawn` returns `Err(())`, the loop emits
`VectorReloadFailed` followed by `VectorRecoveryFailed`, in that order, breaks
with `SignalTo::Shutdown` without consuming any further event, and the break
lands in the graceful-shutdown arm of the post-loop match (`stop` invoked). -/
theorem reload_recovery_failure_shuts_down (opts : RootOpts) (st : LoopState)
    (pp : Option (List ConfigPath)) (c : Config) (rest : List LoopEvent)
    (race : ShutdownRace) :
    (runLoop opts st
        (LoopEvent.signal SignalTo.Reload ⟨pp, some c, ReloadResult.err⟩ :: rest)).1.events
        = st.events ++ [Event.VectorReloadFailed, Event.VectorRecoveryFailed]
    ∧ (runLoop opts st
        (LoopEvent.signal SignalTo.Reload ⟨pp, some c, ReloadResult.err⟩ :: rest)).2
        = some SignalTo.Shutdown
    ∧ (handleBreak
          (runLoop opts st
            (LoopEvent.signal SignalTo.Reload ⟨pp, some c, ReloadResult.err⟩ :: rest)).1
          SignalTo.Shutdown race).map FinalState.stopInvoked = some true := by
  refine ⟨rfl, rfl, ?_⟩
  cases race <;> rfl

/-- C4: a second signal arriving while the graceful stop is in flight resolves
the Shutdown arm's inner select in favor of the signal: `VectorQuit` is emitted
after `VectorStopped`, the stop future is not awaited to completion
(`stopCompleted = false`), and the run terminates. -/
theorem second_signal_during_shutdown_quits (st : LoopState) :
    handleBreak st SignalTo.Shutdown ShutdownRace.signalArrived
      = some { events := st.events ++ [Event.VectorStopped, Event.VectorQuit],
               stopInvoked := true, stopCompleted := false, topologyDropped := true } := rfl

/-- C5: a Quit signal received directly breaks the loop with `SignalTo::Quit`,
and the Quit arm of the post-loop match emits `VectorQuit` and drops the
topology without ever invoking `topology.stop()` (`stopInvoked = false`). -/
theorem quit_signal_bypasses_graceful_stop (opts : RootOpts) (st : LoopState)
    (o : ReloadOracle) (race : ShutdownRace) :
    loopIter opts st (LoopEvent.signal SignalTo.Quit o) = (st, some SignalTo.Quit)
    ∧ handleBreak st SignalTo.Quit race
        = some { events := st.events ++ [Event.VectorQuit],
                 stopInvoked := false, stopCompleted := false, topologyDropped := true } :=
  ⟨rfl, rfl⟩

/-- C6: a crash-channel resolution delivered while the loop is running makes the
loop break immediately with `SignalTo::Shutdown`, ignoring every scheduled later
event — it never silently resumes. -/
theorem crash_notification_breaks_shutdown (opts : RootOpts) (st : LoopState)
    (msg : Option Unit) (rest : List LoopEvent) :
    runLoop opts st (LoopEvent.crash msg :: rest) = (st, some SignalTo.Shutdown) := rfl

/-- C7: if the only event ever delivered is the natural completion of all
sources — no signal and no crash — the run breaks to the Shutdown path, emits
`VectorStopped`, awaits the graceful stop to completion, and terminates. -/
theorem natural_source_completion_terminates (opts : RootOpts) (t : RunningTopology)
    (paths : List ConfigPath) :
    runApp opts t paths [LoopEvent.sourcesFinished] ShutdownRace.stopCompleted
      = RunOutcome.done { events := [Event.VectorStarted, Event.VectorStopped],
                          stopInvoked := true, stopCompleted := true,
                          topologyDropped := true } := rfl

/-- C9: the crash-channel arm's `_` pattern binds `None` (channel closed) as
well as `Some(())`: closure breaks the loop with `SignalTo::Shutdown` and is
indistinguishable from a crash notification at the loop's interface. -/
theorem crash_channel_closure_like_crash (opts : RootOpts) (st : LoopState) :
    loopIter opts st (LoopEvent.crash none) = (st, some SignalTo.Shutdown)
    ∧ loopIter opts st (LoopEvent.crash none) = loopIter opts st (LoopEvent.crash (some ())) :=
  ⟨rfl, rfl⟩

/-- C8: whenever the `threads` option is given with a value below 1,
`prepare_from_opts` returns `Err(exitcode::CONFIG)` — no `Application` value is
ever constructed, whatever the other options and external outcomes. -/
theorem invalid_thread_count_is_config_error (opts : Opts) (o : PrepareOracle)
    (n : Nat) (hthreads : opts.root.threads = some n) (hlt : n < 1) :
    prepare_from_opts opts o = Except.error exitcode.CONFIG := by
  rcases opts with ⟨⟨th, wc, rh⟩⟩
  cases hthreads
  have h0 : n = 0 := Nat.lt_one_iff.mp hlt
  subst h0
  rfl

/-- C8 witness: `prepare_from_opts` at `threads = some 0` and an arbitrary
oracle evaluates to `Err(exitcode::CONFIG)`. -/
theorem invalid_thread_count_is_config_error_witness :
    prepare_from_opts
        { root := { threads := some 0, watchConfig := false, requireHealthy := false } }
        { subCommandCode := none, processedPaths := some [], watcherOk := true,
          loaded := none, builtPieces := true, startedOk := true }
      = Except.error exitcode.CONFIG :=
  invalid_thread_count_is_config_error _ _ 0 rfl (by decide)

/-- Every single iteration of the loop body either continues or breaks with a
value other than `SignalTo::Reload`: a Reload signal is consumed inside the
body. -/
lemma loopIter_break_ne_reload (opts : RootOpts) (st : LoopState) (e : LoopEvent) :
    (loopIter opts st e).2 ≠ some SignalTo.Reload := by
  cases e with
  | signal s o =>
    rcases o with ⟨pp, l, r⟩
    cases s <;> cases l <;> cases r <;> simp [loopIter]
  | crash msg => simp [loopIter]
  | sourcesFinished => simp [loopIter]

/-- The loop as a whole never breaks with `SignalTo::Reload`, over any schedule
of events. -/
lemma runLoop_break_ne_reload (opts : RootOpts) (st : LoopState) (evs : List LoopEvent) :
    (runLoop opts st evs).2 ≠ some SignalTo.Reload := by
  induction evs generalizing st with
  | nil => simp [runLoop]
  | cons e rest ih =>
    have hne := loopIter_break_ne_reload opts st e
    rcases hmatch : loopIter opts st e with ⟨st2, sig⟩
    rw [hmatch] at hne
    cases sig with
    | none => simpa [runLoop, hmatch] using ih st2
    | some s => simpa [runLoop, hmatch] using hne

/-- C10: the value the select loop breaks with is never `SignalTo::Reload`
(every Reload signal is consumed inside the loop body), so a whole run never
hits the `SignalTo::Reload => unreachable!()` arm of the post-loop match. -/
theorem unreachable_reload_arm_never_executed (opts : RootOpts) (t : RunningTopology)
    (paths : List ConfigPath) (evs : List LoopEvent) (race : ShutdownRace) :
    runApp opts t paths evs race ≠ RunOutcome.stuck := by
  have hne := runLoop_break_ne_reload opts (initState t paths) evs
  unfold runApp
  rcases hmatch : runLoop opts (initState t paths) evs with ⟨st, sig⟩
  rw [hmatch] at hne
  cases sig with
  | none => simp
  | some s =>
    cases s with
    | Reload => simp at hne
    | Shutdown => cases race <;> simp [handleBreak]
    | Quit => simp [handleBreak]
